import Mathlib

/-!
Shallow embedding of `scripts/validate.py` (artifact schema validation) and
proofs about it.

Conventions of the embedding:
* A parsed JSON document is `Json`; the top-level documents handled by the
  validators are Python `Dict`s (per the source's type annotations), modelled
  as association lists `Doc := List (String × Json)` with first-match lookup
  (JSON objects produced by `json.load` have unique keys).
* Python `None` is the absence of a value: `dict.get` on a missing key and on
  a key whose stored JSON value is `null` both yield Python `None`, so the
  accessors below collapse `Json.null` to `Option.none`.
* JSON numbers are modelled as integers (no claim involves non-integral
  numbers).
* Code paths on which the Python program would raise an uncaught exception
  (e.g. `value.endswith` on a non-string) are modelled as `Except.error ()`;
  fallible functions return `Except Unit α`.
* File-system state is a function from path strings to a `FileState`,
  covering the distinct `except` arms of `load_json`.
* The external `jsonschema` library is modelled abstractly: a conformance
  capability maps a document and schema to the list of violations the library
  finds (empty = conforming) or to a schema error; `jsonschema.validate`
  raises only the single best-match `ValidationError`, i.e. the first
  violation of that list.
-/

inductive Json where
  | null
  | bool (b : Bool)
  | num (n : Int)
  | str (s : String)
  | arr (elems : List Json)
  | obj (fields : List (String × Json))

/-- A Python dict parsed from a JSON object: ordered key/value pairs. -/
abbrev Doc : Type := List (String × Json)

/-- First-match association-list lookup (Python dict lookup; keys unique). -/
def dictLookup (d : Doc) (k : String) : Option Json :=
  match d with
  | [] => none
  | (k', v) :: rest => if k' = k then some v else dictLookup rest k

/-- Python `k in d` for a dict `d` and string key. -/
def hasKey (d : Doc) (k : String) : Bool :=
  (dictLookup d k).isSome

/-- Python `d.get(k)` / `d[k]` viewed as a Python value: a stored JSON `null`
becomes Python `None`, i.e. `Option.none`. -/
def pyGetV (d : Doc) (k : String) : Option Json :=
  match dictLookup d k with
  | some Json.null => none
  | some v => some v
  | none => none

/-- Python truthiness of a JSON-derived value. -/
def pyTruthy : Json → Bool
  | .null => false
  | .bool b => b
  | .num n => n != 0
  | .str s => s ≠ ""
  | .arr xs => !xs.isEmpty
  | .obj kvs => !kvs.isEmpty

/-- Python truthiness of an optional value (`None` is falsy). -/
def pyTruthyOpt : Option Json → Bool
  | none => false
  | some v => pyTruthy v

mutual
/-- Python `repr` of a JSON-derived value (escape sequences inside string
literals are not modelled; no claim involves strings needing escapes). -/
def pyRepr : Json → String
  | .null => "None"
  | .bool true => "True"
  | .bool false => "False"
  | .num n => toString n
  | .str s => "'" ++ s ++ "'"
  | .arr xs => "[" ++ pyReprElems xs ++ "]"
  | .obj kvs => "\x7b" ++ pyReprFields kvs ++ "\x7d"

def pyReprElems : List Json → String
  | [] => ""
  | [x] => pyRepr x
  | x :: y :: rest => pyRepr x ++ ", " ++ pyReprElems (y :: rest)

def pyReprFields : List (String × Json) → String
  | [] => ""
  | [(k, v)] => "'" ++ k ++ "': " ++ pyRepr v
  | (k, v) :: kv :: rest => "'" ++ k ++ "': " ++ pyRepr v ++ ", " ++ pyReprFields (kv :: rest)
end

/-- Python `str` of a JSON-derived value (as interpolated by an f-string). -/
def pyStr : Json → String
  | .str s => s
  | v => pyRepr v

/-- Python `v == some-string-in-vs` membership test (`v in valid_values`):
only equal strings compare equal, any non-string value is unequal to every
string in the list. -/
def jsonInStrList (v : Json) (vs : List String) : Bool :=
  match v with
  | .str s => vs.contains s
  | _ => false

/-- Python `v == "lit"` for an optional JSON-derived value. -/
def pyEqStr (v : Option Json) (lit : String) : Bool :=
  match v with
  | some (.str s) => s = lit
  | _ => false

-- =============================================================================
-- Registry constants (module-level configuration in validate.py)
-- =============================================================================

def ROOT_DIR : String := "ROOT"

def CONTRACTS_DIR : String := ROOT_DIR ++ "/L3 - Workflows & Contracts/contracts"

def ARTIFACTS_DIR : String := ROOT_DIR ++ "/ARTIFACTS"

def ARTIFACT_SCHEMA_MAP : List (String × String) := [
  ("product-requirements-packet.json", "pm-output-schema.json"),
  ("architecture-handover-packet.json", "architect-output-schema.json"),
  ("architecture-assessment.json", "architecture-assessment-schema.json"),
  ("frontend-implementation-report.json", "frontend-output-schema.json"),
  ("backend-implementation-report.json", "backend-output-schema.json"),
  ("ai-implementation-report.json", "ai-engineer-output-schema.json"),
  ("qa-test-report.json", "qa-output-schema.json"),
  ("deployment-report.json", "devops-output-schema.json"),
  ("stage-completion-signal.json", "stage-completion-signal-schema.json"),
  ("workflow-state.json", "workflow-state-schema.json"),
  ("safety-review-report.json", "safety-output-schema.json"),
  ("governance-review-report.json", "governance-output-schema.json"),
  ("code-health-report.json", "code-health-output-schema.json"),
  ("orchestrator-log.json", "controller-output-schema.json"),
  ("project-config.json", "project-config-schema.json")
]

def VALID_AGENTS : List String := [
  "product_manager", "system_architect", "frontend_engineer",
  "backend_engineer", "ai_engineer", "qa_engineer", "devops_engineer",
  "safety_agent", "governance_agent", "code_health_agent"
]

def VALID_STAGES : List String := [
  "requirements", "architecture", "frontend_implementation",
  "backend_implementation", "ai_implementation", "qa_testing",
  "deployment", "safety_review", "governance_review", "code_health_assessment"
]

def VALID_STATUSES : List String := [
  "completed", "completed_with_warnings", "failed",
  "blocked", "requires_human_intervention"
]

def VALID_EXECUTION_MODES : List String := ["full_system", "fast_feature"]

-- =============================================================================
-- Validation functions (scripts/validate.py)
-- =============================================================================

/-- One arm per `except` clause of `load_json`: the stored file is readable
valid JSON, readable but syntactically invalid JSON (with the parser's
diagnostic), absent, or unreadable for another I/O reason. -/
inductive FileState where
  | valid (doc : Doc)
  | invalidJson (diag : String)
  | absent
  | ioError (diag : String)

/-- A file-system snapshot: each path is in one `FileState`. -/
def FS : Type := String → FileState

/-- `Path.exists()`: true unless the path is absent. -/
def pathExists (fs : FS) (p : String) : Bool :=
  match fs p with
  | .absent => false
  | _ => true

/-- `load_json`: returns `(data, error)`, exactly one of which is set. -/
def load_json (fs : FS) (p : String) : Option Doc × Option String :=
  match fs p with
  | .valid d => (some d, none)
  | .invalidJson diag => (none, some ("Invalid JSON syntax: " ++ diag))
  | .absent => (none, some ("File not found: " ++ p))
  | .ioError diag => (none, some ("Error reading file: " ++ diag))

/-- Characters of the final path component: everything after the last
separator. -/
def pathNameAux : List Char → List Char → List Char
  | [], acc => acc.reverse
  | c :: rest, acc =>
      if c = '/' then pathNameAux rest [] else pathNameAux rest (c :: acc)

/-- `artifact_path.name`: the final path component. -/
def pathName (p : String) : String :=
  ⟨pathNameAux p.data []⟩

/-- `get_schema_path`: registry lookup by file name, joined onto the
contracts directory; no existence check. -/
def get_schema_path (artifactPath : String) : Option String :=
  (ARTIFACT_SCHEMA_MAP.lookup (pathName artifactPath)).map
    (fun schemaName => CONTRACTS_DIR ++ "/" ++ schemaName)

/-- One violation reported by the external jsonschema library: its JSON path
within the document and its message. -/
structure Violation where
  json_path : String
  message : String

/-- Everything the external jsonschema library finds for one document/schema
pair: the full list of violations (empty = conforming), or a complaint that
the schema document itself is malformed. -/
inductive ConformanceReport where
  | findings (vs : List Violation)
  | schemaErr (message : String)

/-- A conformance capability: the (deterministic) behaviour of the external
jsonschema library on a document and schema. -/
def Capability : Type := Doc → Doc → ConformanceReport

/-- `validate_with_jsonschema`: `jsonschema.validate` raises at most one
`ValidationError` (the best match, here the first of the library's findings),
and the single `except` arm converts that one exception into an error string;
a `SchemaError` is converted into a distinct "Schema error" string. -/
def validate_with_jsonschema (report : ConformanceReport) : List String :=
  match report with
  | .findings [] => []
  | .findings (v :: _) => [v.json_path ++ ": " ++ v.message]
  | .schemaErr m => ["Schema error: " ++ m]

/-- The message emitted for a missing required field. -/
def missingMsg (fieldName : String) : String :=
  "Missing required field: " ++ fieldName

/-- The required-field loop shared by the validators: one message, in order,
per required field name absent from the document. -/
def missingFieldErrors (required : List String) (data : Doc) : List String :=
  match required with
  | [] => []
  | f :: rest =>
      (if hasKey data f then [] else [missingMsg f]) ++ missingFieldErrors rest data

/-- The loop body of `validate_required_fields` over an arbitrary JSON list
of field names: Python `field not in data` raises `TypeError` on unhashable
values (lists, dicts); other non-string values are simply not dict keys. -/
def requiredFieldsLoop (fields : List Json) (data : Doc) : Except Unit (List String) :=
  match fields with
  | [] => .ok []
  | f :: rest =>
      match f with
      | .arr _ => .error ()
      | .obj _ => .error ()
      | _ => do
          let tail ← requiredFieldsLoop rest data
          let present := match f with
            | .str s => hasKey data s
            | _ => false
          pure ((if present then [] else [missingMsg (pyStr f)]) ++ tail)

/-- `validate_required_fields`: iterates `schema.get("required", [])`.
Python iterates a string character-by-character and a dict key-by-key; a
number, boolean or `null` there is not iterable (`TypeError`). -/
def validate_required_fields (data : Doc) (schema : Doc) : Except Unit (List String) :=
  match dictLookup schema "required" with
  | none => requiredFieldsLoop [] data
  | some (.arr fields) => requiredFieldsLoop fields data
  | some (.str s) => requiredFieldsLoop (s.data.map (fun c => Json.str (String.singleton c))) data
  | some (.obj kvs) => requiredFieldsLoop (kvs.map (fun kv => Json.str kv.1)) data
  | some _ => .error ()

/-- The message emitted by `validate_enum` on a mismatch. -/
def enumErrorMsg (fieldName : String) (v : Json) (validValues : List String) : String :=
  "Invalid " ++ fieldName ++ ": '" ++ pyStr v ++ "' (valid: " ++
    String.intercalate ", " validValues ++ ")"

/-- `validate_enum`: skipped when the value is Python `None` (absent key or
stored JSON `null`); otherwise a single message on mismatch. -/
def validate_enum (value : Option Json) (validValues : List String)
    (fieldName : String) : Option String :=
  match value with
  | none => none
  | some v =>
      if jsonInStrList v validValues then none
      else some (enumErrorMsg fieldName v validValues)

/-- The message emitted by `validate_timestamp` on a malformed timestamp. -/
def tsErrMsg (s : String) : String :=
  "Invalid timestamp format: '" ++ s ++ "' (expected ISO 8601)"

-- Model of CPython's (pre-3.11) `datetime.fromisoformat` grammar:
-- `YYYY-MM-DD[*HH[:MM[:SS[.fff[fff]]]][(+|-)HH:MM[:SS[.ffffff]]]]`.

def digitVal (c : Char) : Nat := c.toNat - '0'.toNat

/-- Two decimal digits at the head of the list, with the remainder. -/
def twoDigits : List Char → Option (Nat × List Char)
  | a :: b :: rest =>
      if a.isDigit && b.isDigit then some (10 * digitVal a + digitVal b, rest) else none
  | _ => none

def isLeapYear (y : Nat) : Bool :=
  y % 4 == 0 && (y % 100 != 0 || y % 400 == 0)

def daysInMonth (y m : Nat) : Nat :=
  if m = 2 then (if isLeapYear y then 29 else 28)
  else if m = 4 || m = 6 || m = 9 || m = 11 then 30
  else 31

/-- The calendar-date prefix `YYYY-MM-DD` (year 0001-9999). -/
def parseIsoDate : List Char → Option (Nat × Nat × Nat)
  | [y1, y2, y3, y4, c1, m1, m2, c2, d1, d2] =>
      if y1.isDigit && y2.isDigit && y3.isDigit && y4.isDigit &&
         c1 = '-' && m1.isDigit && m2.isDigit && c2 = '-' && d1.isDigit && d2.isDigit then
        let y := 1000 * digitVal y1 + 100 * digitVal y2 + 10 * digitVal y3 + digitVal y4
        let m := 10 * digitVal m1 + digitVal m2
        let d := 10 * digitVal d1 + digitVal d2
        if 1 ≤ y && 1 ≤ m && m ≤ 12 && 1 ≤ d && d ≤ daysInMonth y m then
          some (y, m, d)
        else none
      else none
  | _ => none

/-- `_parse_hh_mm_ss_ff`: `HH[:MM[:SS[.fff or .ffffff]]]`, digits unchecked
for range here (range checks happen in the datetime/timedelta constructors). -/
def parseHMSF (cs : List Char) : Option (Nat × Nat × Nat) := do
  let (hh, rest) ← twoDigits cs
  match rest with
  | [] => some (hh, 0, 0)
  | ':' :: rest' => do
      let (mm, rest'') ← twoDigits rest'
      match rest'' with
      | [] => some (hh, mm, 0)
      | ':' :: rest''' => do
          let (ss, tail) ← twoDigits rest'''
          match tail with
          | [] => some (hh, mm, ss)
          | '.' :: frac =>
              if (frac.length = 3 || frac.length = 6) && frac.all Char.isDigit then
                some (hh, mm, ss)
              else none
          | _ => none
      | _ => none
  | _ => none

/-- First index of a character in a list. -/
def findCharIdx (cs : List Char) (c : Char) : Option Nat :=
  match cs with
  | [] => none
  | x :: rest => if x = c then some 0 else (findCharIdx rest c).map Nat.succ

/-- `_parse_isoformat_time`: the time-of-day part, split at the first `-` or
`+` into local time and UTC offset; the offset must be `HH:MM[:SS[.ffffff]]`
(string length 5, 8 or 15) and strictly less than 24 hours. -/
def parseIsoTime (cs : List Char) : Bool :=
  let tzIdx := match findCharIdx cs '-' with
    | some i => some i
    | none => findCharIdx cs '+'
  let timePart := match tzIdx with
    | some i => cs.take i
    | none => cs
  let timeOk := match parseHMSF timePart with
    | some (hh, mm, ss) => hh ≤ 23 && mm ≤ 59 && ss ≤ 59
    | none => false
  let tzOk := match tzIdx with
    | none => true
    | some i =>
        let tzPart := cs.drop (i + 1)
        (tzPart.length = 5 || tzPart.length = 8 || tzPart.length = 15) &&
        (match parseHMSF tzPart with
         | some (th, tm, ts) => th * 3600 + tm * 60 + ts < 24 * 3600
         | none => false)
  timeOk && tzOk

/-- `datetime.fromisoformat` (pre-3.11): the first 10 characters are the
date, character 10 (any single separator) is ignored, the remainder (when
non-empty) is the time. -/
def fromisoformatOK (s : String) : Bool :=
  let cs := s.data
  match parseIsoDate (cs.take 10) with
  | none => false
  | some _ =>
      if cs.length ≤ 10 then cs.length = 10
      else
        let tstr := cs.drop 11
        tstr.isEmpty || parseIsoTime tstr

/-- `validate_timestamp`: called on the raw `data["timestamp"]` value. A falsy
value (Python `None`, `""`, `0`, `[]`, ...) yields "Empty timestamp"; a truthy
non-string has no `.endswith` and raises (`Except.error`); a truthy string is
parsed, with one trailing `'Z'` stripped first. -/
def validate_timestamp (value : Option Json) : Except Unit (Option String) :=
  if pyTruthyOpt value = false then .ok (some "Empty timestamp")
  else
    match value with
    | some (.str s) =>
        .ok (if (if s.data.getLast? = some 'Z' then fromisoformatOK ⟨s.data.dropLast⟩
                 else fromisoformatOK s) then none
             else some (tsErrMsg s))
    | _ => .error ()

/-- The soft-invariant warning for `status == "blocked"`. -/
def blockedMsg : String :=
  "Status is 'blocked' but no blocking_issues provided (warning)"

/-- The timestamp step of the stage-completion validator: `validate_timestamp`
runs only when the `timestamp` key is present (`none` = no finding). -/
def scsTimestampStep (data : Doc) : Except Unit (Option String) :=
  if hasKey data "timestamp" then validate_timestamp (pyGetV data "timestamp")
  else .ok none

/-- The three enum findings of the stage-completion validator, in order. -/
def scsEnumErrors (data : Doc) : List String :=
  (validate_enum (pyGetV data "agent") VALID_AGENTS "agent").toList ++
  (validate_enum (pyGetV data "stage") VALID_STAGES "stage").toList ++
  (validate_enum (pyGetV data "status") VALID_STATUSES "status").toList

/-- The blocked/blocking_issues soft-invariant finding. -/
def scsBlockedErrors (data : Doc) : List String :=
  if pyEqStr (pyGetV data "status") "blocked" &&
     pyTruthyOpt (pyGetV data "blocking_issues") = false then [blockedMsg]
  else []

/-- `validate_stage_completion_signal`: required-field messages, then the
three enum checks, then the timestamp check (only when the key is present),
then the blocked/blocking_issues soft invariant — all appended to one list. -/
def validate_stage_completion_signal (data : Doc) : Except Unit (List String) :=
  match scsTimestampStep data with
  | .error e => .error e
  | .ok tsr =>
      .ok (missingFieldErrors ["agent", "stage", "status", "timestamp"] data ++
           scsEnumErrors data ++ tsr.toList ++ scsBlockedErrors data)

/-- The message emitted for an unregistered execution mode (note: no valid
set is included, unlike `validate_enum`'s message). -/
def modeMsg (v : Json) : String :=
  "Invalid execution_mode: '" ++ pyStr v ++ "'"

/-- `validate_workflow_state`: required-field messages, then the
`execution_mode` check (skipped for falsy values, message without the valid
set). -/
def validate_workflow_state (data : Doc) : List String :=
  missingFieldErrors
    ["workflow_id", "execution_mode", "current_stage", "stages", "created_at", "updated_at"]
    data ++
  (match pyGetV data "execution_mode" with
   | some v =>
       if pyTruthy v && jsonInStrList v VALID_EXECUTION_MODES = false then [modeMsg v]
       else []
   | none => [])

/-- `validate_artifact`: load the artifact (a load failure is the single
returned error), resolve the schema (explicit override or registry; no
resolution or no file on disk is a warning with success), load the schema
(failure is a "Schema error"), then run the conformance tier when the
jsonschema capability is available, else the structural check plus the
domain validator keyed by exact file name; success iff the error list is
empty. -/
def domainValidatorStep (artifactPath : String) (data : Doc) :
    Except Unit (List String) :=
  if pathName artifactPath = "stage-completion-signal.json" then
    validate_stage_completion_signal data
  else if pathName artifactPath = "workflow-state.json" then
    .ok (validate_workflow_state data)
  else .ok []

def validate_artifact (fs : FS) (cap : Capability) (hasJsonschema : Bool)
    (artifactPath : String) (schemaPathArg : Option String) :
    Except Unit (Bool × List String) :=
  match load_json fs artifactPath with
  | (_, some e) => .ok (false, [e])
  | (none, none) => .error ()
  | (some data, none) =>
    match (match schemaPathArg with
           | some p => some p
           | none => get_schema_path artifactPath) with
    | none => .ok (true, [])
    | some sp =>
      if pathExists fs sp = false then .ok (true, [])
      else
        match load_json fs sp with
        | (_, some e) => .ok (false, ["Schema error: " ++ e])
        | (none, none) => .error ()
        | (some schema, none) =>
          if hasJsonschema then
            let errors := validate_with_jsonschema (cap data schema)
            .ok (errors.isEmpty, errors)
          else
            match validate_required_fields data schema with
            | .error e => .error e
            | .ok req =>
              match domainValidatorStep artifactPath data with
              | .error e => .error e
              | .ok domain =>
                let errors := req ++ domain
                .ok (errors.isEmpty, errors)

/-- `validate_file`: per-file success flag (printing omitted). -/
def validate_file (fs : FS) (cap : Capability) (hasJsonschema : Bool)
    (artifactPath : String) (schemaPathArg : Option String) : Except Unit Bool :=
  (validate_artifact fs cap hasJsonschema artifactPath schemaPathArg).map (·.1)

/-- The accumulation loop of `validate_all` over the enumerated JSON files:
(total, passed, failed) counts. -/
def batchFold (fs : FS) (cap : Capability) (hasJsonschema : Bool) :
    List String → Except Unit (Nat × Nat × Nat)
  | [] => .ok (0, 0, 0)
  | f :: rest =>
      match validate_file fs cap hasJsonschema f none with
      | .error e => .error e
      | .ok ok =>
          match batchFold fs cap hasJsonschema rest with
          | .error e => .error e
          | .ok (t, p, fl) =>
              .ok (t + 1, if ok then p + 1 else p, if ok then fl else fl + 1)

/-- `validate_all`: false when the artifacts directory is missing; otherwise
overall success iff no file failed. `files` is the enumeration of JSON files
under the artifacts root. -/
def validate_all (fs : FS) (cap : Capability) (hasJsonschema : Bool)
    (artifactsDirExists : Bool) (files : List String) : Except Unit Bool :=
  if artifactsDirExists = false then .ok false
  else (batchFold fs cap hasJsonschema files).map (fun c => c.2.2 == 0)

/-- The `--all` branch of `main`: `sys.exit(0 if success else 1)`. -/
def mainAllExitCode (fs : FS) (cap : Capability) (hasJsonschema : Bool)
    (artifactsDirExists : Bool) (files : List String) : Except Unit Nat :=
  (validate_all fs cap hasJsonschema artifactsDirExists files).map
    (fun success => if success then 0 else 1)

-- =============================================================================
-- Helper lemmas: string disjointness between message families
-- =============================================================================

theorem strDataAppend (s t : String) : (s ++ t).data = s.data ++ t.data := by
  cases s; cases t; rfl

theorem str_ne_of_get {s t : String} {n : Nat} {a b : Char}
    (ha : s.data.get? n = some a) (hb : t.data.get? n = some b)
    (hab : a ≠ b) : s ≠ t := by
  intro he
  rw [he, hb] at ha
  exact hab (Option.some.inj ha.symm)

theorem missingMsg_get0 (f : String) : (missingMsg f).data.get? 0 = some 'M' := by
  simp only [missingMsg, strDataAppend]; rfl

theorem enumErrorMsg_get0 (f : String) (v : Json) (V : List String) :
    (enumErrorMsg f v V).data.get? 0 = some 'I' := by
  simp only [enumErrorMsg, strDataAppend, List.append_assoc]; rfl

theorem enumErrorMsg_agent_get8 (v : Json) (V : List String) :
    (enumErrorMsg "agent" v V).data.get? 8 = some 'a' := by
  simp only [enumErrorMsg, strDataAppend, List.append_assoc]; rfl

theorem enumErrorMsg_stage_get8 (v : Json) (V : List String) :
    (enumErrorMsg "stage" v V).data.get? 8 = some 's' := by
  simp only [enumErrorMsg, strDataAppend, List.append_assoc]; rfl

theorem enumErrorMsg_status_get8 (v : Json) (V : List String) :
    (enumErrorMsg "status" v V).data.get? 8 = some 's' := by
  simp only [enumErrorMsg, strDataAppend, List.append_assoc]; rfl

theorem enumErrorMsg_stage_get11 (v : Json) (V : List String) :
    (enumErrorMsg "stage" v V).data.get? 11 = some 'g' := by
  simp only [enumErrorMsg, strDataAppend, List.append_assoc]; rfl

theorem enumErrorMsg_status_get11 (v : Json) (V : List String) :
    (enumErrorMsg "status" v V).data.get? 11 = some 't' := by
  simp only [enumErrorMsg, strDataAppend, List.append_assoc]; rfl

theorem tsErrMsg_get0 (s : String) : (tsErrMsg s).data.get? 0 = some 'I' := by
  simp only [tsErrMsg, strDataAppend, List.append_assoc]; rfl

theorem tsErrMsg_get8 (s : String) : (tsErrMsg s).data.get? 8 = some 't' := by
  simp only [tsErrMsg, strDataAppend, List.append_assoc]; rfl

theorem modeMsg_get8 (v : Json) : (modeMsg v).data.get? 8 = some 'e' := by
  simp only [modeMsg, strDataAppend, List.append_assoc]; rfl

theorem blockedMsg_get0 : blockedMsg.data.get? 0 = some 'S' := rfl

theorem emptyTs_get0 : ("Empty timestamp" : String).data.get? 0 = some 'E' := rfl

-- =============================================================================
-- Structural lemmas about the validators
-- =============================================================================

theorem mem_missingFieldErrors {req : List String} {data : Doc} {m : String}
    (h : m ∈ missingFieldErrors req data) : ∃ f ∈ req, m = missingMsg f := by
  induction req with
  | nil => simp [missingFieldErrors] at h
  | cons f rest ih =>
      simp only [missingFieldErrors] at h
      rcases List.mem_append.1 h with h1 | h2
      · by_cases hk : hasKey data f
        · simp [hk] at h1
        · simp [hk] at h1
          exact ⟨f, by simp, h1⟩
      · obtain ⟨g, hg, hm⟩ := ih h2
        exact ⟨g, by simp [hg], hm⟩

theorem validate_enum_eq_some {x : Option Json} {V : List String} {f m : String}
    (h : validate_enum x V f = some m) :
    ∃ v, x = some v ∧ jsonInStrList v V = false ∧ m = enumErrorMsg f v V := by
  cases x with
  | none => simp [validate_enum] at h
  | some v =>
      by_cases hin : jsonInStrList v V
      · simp [validate_enum, hin] at h
      · refine ⟨v, rfl, by simpa using hin, ?_⟩
        simp [validate_enum, hin] at h
        exact h.symm

theorem validate_timestamp_ok {x : Option Json} {r : Option String}
    (h : validate_timestamp x = .ok r) :
    r = none ∨ r = some "Empty timestamp" ∨ ∃ s, r = some (tsErrMsg s) := by
  unfold validate_timestamp at h
  by_cases ht : pyTruthyOpt x = false
  · simp only [ht, if_pos rfl] at h
    right; left
    simpa using (Except.ok.inj h).symm
  · rw [if_neg (by simpa using ht)] at h
    match x, h with
    | some (.str s), h =>
        by_cases hp : (if s.data.getLast? = some 'Z' then fromisoformatOK ⟨s.data.dropLast⟩
                       else fromisoformatOK s) = true
        · left
          simp only [hp, if_pos rfl] at h
          simpa using (Except.ok.inj h).symm
        · right; right
          refine ⟨s, ?_⟩
          simp only [if_neg hp] at h
          simpa using (Except.ok.inj h).symm

theorem scsTimestampStep_ok {data : Doc} {r : Option String}
    (h : scsTimestampStep data = .ok r) :
    r = none ∨ r = some "Empty timestamp" ∨ ∃ s, r = some (tsErrMsg s) := by
  unfold scsTimestampStep at h
  by_cases hk : hasKey data "timestamp"
  · rw [if_pos hk] at h
    exact validate_timestamp_ok h
  · rw [if_neg hk] at h
    left
    simpa using (Except.ok.inj h).symm

theorem mem_scsEnumErrors {data : Doc} {m : String} (h : m ∈ scsEnumErrors data) :
    (∃ v, m = enumErrorMsg "agent" v VALID_AGENTS) ∨
    (∃ v, m = enumErrorMsg "stage" v VALID_STAGES) ∨
    (∃ v, m = enumErrorMsg "status" v VALID_STATUSES) := by
  unfold scsEnumErrors at h
  rw [List.append_assoc, List.mem_append, List.mem_append] at h
  rcases h with h' | h' | h'
  · cases he : validate_enum (pyGetV data "agent") VALID_AGENTS "agent" with
    | none => rw [he] at h'; simp at h'
    | some m' =>
        rw [he] at h'
        simp at h'
        obtain ⟨v, _, _, hm⟩ := validate_enum_eq_some he
        exact Or.inl ⟨v, h' ▸ hm⟩
  · cases he : validate_enum (pyGetV data "stage") VALID_STAGES "stage" with
    | none => rw [he] at h'; simp at h'
    | some m' =>
        rw [he] at h'
        simp at h'
        obtain ⟨v, _, _, hm⟩ := validate_enum_eq_some he
        exact Or.inr (Or.inl ⟨v, h' ▸ hm⟩)
  · cases he : validate_enum (pyGetV data "status") VALID_STATUSES "status" with
    | none => rw [he] at h'; simp at h'
    | some m' =>
        rw [he] at h'
        simp at h'
        obtain ⟨v, _, _, hm⟩ := validate_enum_eq_some he
        exact Or.inr (Or.inr ⟨v, h' ▸ hm⟩)

theorem count_eq_zero_of_forall_ne {l : List String} {m : String}
    (h : ∀ x ∈ l, x ≠ m) : l.count m = 0 := by
  rw [List.count_eq_zero]
  intro hm
  exact h m hm rfl

theorem scs_shape {data : Doc} {l : List String}
    (h : validate_stage_completion_signal data = .ok l) :
    ∃ tsr, scsTimestampStep data = .ok tsr ∧
      l = missingFieldErrors ["agent", "stage", "status", "timestamp"] data ++
          scsEnumErrors data ++ tsr.toList ++ scsBlockedErrors data := by
  unfold validate_stage_completion_signal at h
  cases hts : scsTimestampStep data with
  | error e => rw [hts] at h; simp at h
  | ok tsr =>
      rw [hts] at h
      exact ⟨tsr, rfl, (Except.ok.inj h).symm⟩

theorem count_scsBlockedErrors_eq_zero {data : Doc} {m : String}
    (hne : m ≠ blockedMsg) : (scsBlockedErrors data).count m = 0 := by
  unfold scsBlockedErrors
  by_cases hb : (pyEqStr (pyGetV data "status") "blocked" &&
      pyTruthyOpt (pyGetV data "blocking_issues") = false) = true
  · rw [if_pos hb]
    exact count_eq_zero_of_forall_ne (by intro x hx; simp at hx; subst hx; exact hne.symm)
  · rw [if_neg hb]
    rfl

theorem count_tsr_eq_zero {data : Doc} {tsr : Option String} {m : String}
    (hts : scsTimestampStep data = .ok tsr)
    (h0 : m.data.get? 0 = some 'I')
    (h8 : m.data.get? 8 ≠ some 't') : tsr.toList.count m = 0 := by
  rcases scsTimestampStep_ok hts with h | h | ⟨s, h⟩ <;> subst h
  · rfl
  · refine count_eq_zero_of_forall_ne ?_
    intro x hx
    simp at hx
    subst hx
    exact str_ne_of_get emptyTs_get0 h0 (by decide)
  · refine count_eq_zero_of_forall_ne ?_
    intro x hx
    simp at hx
    subst hx
    intro he
    rw [← he] at h8
    exact h8 (tsErrMsg_get8 s)

theorem scs_count_eq_enums {data : Doc} {l : List String} {m : String}
    (hok : validate_stage_completion_signal data = .ok l)
    (h0 : m.data.get? 0 = some 'I')
    (h8 : m.data.get? 8 ≠ some 't') :
    l.count m = (scsEnumErrors data).count m := by
  obtain ⟨tsr, hts, hl⟩ := scs_shape hok
  subst hl
  rw [List.count_append, List.count_append, List.count_append]
  have hmiss : (missingFieldErrors ["agent", "stage", "status", "timestamp"] data).count m = 0 := by
    refine count_eq_zero_of_forall_ne ?_
    intro x hx
    obtain ⟨f, _, hf⟩ := mem_missingFieldErrors hx
    subst hf
    exact (str_ne_of_get h0 (missingMsg_get0 f) (by decide)).symm
  rw [hmiss, count_tsr_eq_zero hts h0 h8,
    count_scsBlockedErrors_eq_zero (str_ne_of_get h0 blockedMsg_get0 (by decide))]
  omega

theorem scs_count_eq_missing {data : Doc} {l : List String} {m : String}
    (hok : validate_stage_completion_signal data = .ok l)
    (h0 : m.data.get? 0 = some 'M') :
    l.count m = (missingFieldErrors ["agent", "stage", "status", "timestamp"] data).count m := by
  obtain ⟨tsr, hts, hl⟩ := scs_shape hok
  subst hl
  rw [List.count_append, List.count_append, List.count_append]
  have henums : (scsEnumErrors data).count m = 0 := by
    refine count_eq_zero_of_forall_ne ?_
    intro x hx
    rcases mem_scsEnumErrors hx with ⟨v, hv⟩ | ⟨v, hv⟩ | ⟨v, hv⟩ <;> subst hv <;>
      exact (str_ne_of_get h0 (enumErrorMsg_get0 _ v _) (by decide)).symm
  have hts0 : tsr.toList.count m = 0 := by
    rcases scsTimestampStep_ok hts with h | h | ⟨s, h⟩ <;> subst h
    · rfl
    · refine count_eq_zero_of_forall_ne ?_
      intro x hx
      simp at hx
      subst hx
      exact (str_ne_of_get h0 emptyTs_get0 (by decide)).symm
    · refine count_eq_zero_of_forall_ne ?_
      intro x hx
      simp at hx
      subst hx
      exact (str_ne_of_get h0 (tsErrMsg_get0 s) (by decide)).symm
  rw [henums, hts0,
    count_scsBlockedErrors_eq_zero (str_ne_of_get h0 blockedMsg_get0 (by decide))]
  omega

-- =============================================================================
-- Loader failure classification (spec error taxonomy for the Document Loader)
-- =============================================================================

/-- `p` is a prefix of `s` (character-wise). -/
def strStartsWith (s p : String) : Bool :=
  p.data.isPrefixOf s.data

/-- The spec's three Document Loader failure classes. -/
inductive LoadFailureClass where
  | notFound
  | invalidSyn
  | otherIoErr
deriving DecidableEq

/-- Recover the failure class from a loader error message alone. -/
def classifyLoadError (m : String) : Option LoadFailureClass :=
  if strStartsWith m "Invalid JSON syntax: " then some .invalidSyn
  else if strStartsWith m "File not found: " then some .notFound
  else if strStartsWith m "Error reading file: " then some .otherIoErr
  else none

/-- The failure class a file state should produce (none for a loadable file). -/
def loadFailureClassOf : FileState → Option LoadFailureClass
  | .valid _ => none
  | .invalidJson _ => some .invalidSyn
  | .absent => some .notFound
  | .ioError _ => some .otherIoErr

/-- C9: for every file path the Document Loader is total and never raises: it
returns either a parsed document with no error message, or no document with
exactly one failure message, and that single message correctly classifies the
failure as not-found vs invalid-syntax vs other-I/O-error. -/
theorem classify_syn (d : String) :
    classifyLoadError ("Invalid JSON syntax: " ++ d) = some .invalidSyn := by
  have h1 : strStartsWith ("Invalid JSON syntax: " ++ d) "Invalid JSON syntax: " = true := by
    unfold strStartsWith
    rw [strDataAppend, List.isPrefixOf_iff_prefix]
    exact List.prefix_append _ _
  simp [classifyLoadError, h1]

theorem classify_nf (p : String) :
    classifyLoadError ("File not found: " ++ p) = some .notFound := by
  have h1 : strStartsWith ("File not found: " ++ p) "Invalid JSON syntax: " = false := by
    unfold strStartsWith
    rw [strDataAppend]
    rfl
  have h2 : strStartsWith ("File not found: " ++ p) "File not found: " = true := by
    unfold strStartsWith
    rw [strDataAppend, List.isPrefixOf_iff_prefix]
    exact List.prefix_append _ _
  simp [classifyLoadError, h1, h2]

theorem classify_other (d : String) :
    classifyLoadError ("Error reading file: " ++ d) = some .otherIoErr := by
  have h1 : strStartsWith ("Error reading file: " ++ d) "Invalid JSON syntax: " = false := by
    unfold strStartsWith
    rw [strDataAppend]
    rfl
  have h2 : strStartsWith ("Error reading file: " ++ d) "File not found: " = false := by
    unfold strStartsWith
    rw [strDataAppend]
    rfl
  have h3 : strStartsWith ("Error reading file: " ++ d) "Error reading file: " = true := by
    unfold strStartsWith
    rw [strDataAppend, List.isPrefixOf_iff_prefix]
    exact List.prefix_append _ _
  simp [classifyLoadError, h1, h2, h3]

theorem C9_loader_total_and_classified (fs : FS) (p : String) :
    ((load_json fs p).1.isSome = true ↔ (load_json fs p).2 = none) ∧
    (∀ d, (load_json fs p).1 = some d → (load_json fs p).2 = none ∧ fs p = .valid d) ∧
    (∀ m, (load_json fs p).2 = some m →
       (load_json fs p).1 = none ∧ classifyLoadError m = loadFailureClassOf (fs p)) := by
  cases hfs : fs p <;>
    simp [load_json, hfs, loadFailureClassOf]
  · exact classify_syn _
  · exact classify_nf _
  · exact classify_other _

/-- Witness for C9 at a concrete file system and path: the message produced
for an absent file classifies as not-found. -/
theorem C9_loader_total_and_classified_witness :
    classifyLoadError "File not found: b.json" = some LoadFailureClass.notFound :=
  ((C9_loader_total_and_classified (fun _ => FileState.absent) "b.json").2.2
    "File not found: b.json" rfl).2

deriving instance DecidableEq for Except

/-- A trivial conformance capability (finds no violations); used to
instantiate witnesses. -/
def capNone : Capability := fun _ _ => .findings []

/-- C4: when the artifact document fails to load (not found, invalid JSON, or
any other read error), the engine terminates at once with success = false and
exactly that one loader error; the result is the same for every conformance
capability, tier, and schema-path override, so the schema is never resolved or
consulted. -/
theorem C4_load_failure_is_single_error (fs : FS) (cap : Capability)
    (hasJsonschema : Bool) (p : String) (spArg : Option String) (e : String)
    (h : (load_json fs p).2 = some e) :
    validate_artifact fs cap hasJsonschema p spArg = .ok (false, [e]) := by
  unfold validate_artifact
  cases hfs : fs p <;> simp [load_json, hfs] at h ⊢ <;> rw [h]

/-- Witness for C4: an artifact file holding invalid JSON. -/
theorem C4_load_failure_is_single_error_witness :
    validate_artifact (fun _ => FileState.invalidJson "Expecting value: line 1 column 1 (char 0)")
        capNone true "a.json" none =
      .ok (false, ["Invalid JSON syntax: Expecting value: line 1 column 1 (char 0)"]) :=
  C4_load_failure_is_single_error _ capNone true "a.json" none _ rfl

/-- C3: for a loadable artifact whose file name has no registry mapping, and
for one whose resolved schema path does not exist on disk, the engine returns
success = true with an empty error list. -/
theorem C3_missing_schema_is_success (fs : FS) (cap : Capability)
    (hasJsonschema : Bool) (p : String) (d : Doc) (hload : fs p = .valid d) :
    (get_schema_path p = none →
       validate_artifact fs cap hasJsonschema p none = .ok (true, [])) ∧
    (∀ sp, get_schema_path p = some sp → pathExists fs sp = false →
       validate_artifact fs cap hasJsonschema p none = .ok (true, [])) := by
  constructor
  · intro hns
    unfold validate_artifact
    simp [load_json, hload, hns]
  · intro sp hsp hex
    unfold validate_artifact
    simp [load_json, hload, hsp, hex]

/-- File system for the C3 witness: one unmapped artifact, nothing else. -/
def fsUnmapped : FS :=
  fun p => if p = "ROOT/ARTIFACTS/notes.json" then .valid [] else .absent

/-- File system for the C3 witness: a mapped artifact whose schema file is
absent. -/
def fsNoSchemaFile : FS :=
  fun p => if p = "ROOT/ARTIFACTS/stage-completion-signal.json" then .valid [] else .absent

/-- Witness for C3: an unmapped artifact name, and a mapped artifact whose
schema file does not exist, both succeed with zero errors. -/
theorem C3_missing_schema_is_success_witness :
    validate_artifact fsUnmapped capNone false "ROOT/ARTIFACTS/notes.json" none =
      .ok (true, []) ∧
    validate_artifact fsNoSchemaFile capNone false
        "ROOT/ARTIFACTS/stage-completion-signal.json" none = .ok (true, []) :=
  ⟨(C3_missing_schema_is_success fsUnmapped capNone false
      "ROOT/ARTIFACTS/notes.json" [] rfl).1 (by rfl),
   (C3_missing_schema_is_success fsNoSchemaFile capNone false
      "ROOT/ARTIFACTS/stage-completion-signal.json" [] rfl).2
     (CONTRACTS_DIR ++ "/stage-completion-signal-schema.json") (by rfl) (by rfl)⟩

/-- Modelled from the spec: the contract file
`stage-completion-signal-schema.json` lives outside `src/`, so its content is
taken from the spec (§3, §4.4): the stage-completion signal's required fields
are `agent`, `stage`, `status` and `timestamp`. Only the `required` list is
consulted by the fallback tier. -/
def stageCompletionSignalSchema : Doc :=
  [("required", Json.arr [Json.str "agent", Json.str "stage",
                          Json.str "status", Json.str "timestamp"])]

/-- The document of claim C7. -/
def c7Doc : Doc :=
  [("agent", Json.str "product_manager"),
   ("stage", Json.str "requirements"),
   ("status", Json.str "completed"),
   ("timestamp", Json.str "2024-01-01T00:00:00Z")]

/-- The registry-resolved schema path for a stage-completion signal. -/
def scsSchemaPath : String :=
  "ROOT/L3 - Workflows & Contracts/contracts/stage-completion-signal-schema.json"

/-- File system for C7: the artifact document and its schema. -/
def fsC7 : FS := fun p =>
  if p = "ROOT/ARTIFACTS/stage-completion-signal.json" then .valid c7Doc
  else if p = scsSchemaPath then .valid stageCompletionSignalSchema
  else .absent

/-- C7: the specific document with agent `product_manager`, stage
`requirements`, status `completed` and timestamp `2024-01-01T00:00:00Z`
yields an empty error list from the stage-completion-signal validator and the
engine reports success; the trailing literal `Z` is accepted (the timestamp
check returns no finding). -/
theorem C7_valid_document_passes :
    validate_timestamp (some (Json.str "2024-01-01T00:00:00Z")) = .ok none ∧
    validate_stage_completion_signal c7Doc = .ok [] ∧
    validate_artifact fsC7 capNone false
      "ROOT/ARTIFACTS/stage-completion-signal.json" none = .ok (true, []) := by
  refine ⟨by decide, by decide, by decide⟩

/-- C5: a stage-completion-signal document whose `status` is `"blocked"` with
no non-empty `blocking_issues`, all required fields present and all enum and
timestamp values individually valid, gets a non-empty error list from the
domain validator — exactly the soft-invariant warning — and the engine then
reports success = false for the artifact (for any loadable schema). -/
theorem C5_blocked_without_issues_fails
    (data : Doc) (fs : FS) (cap : Capability) (p : String)
    (schema : Doc) (sp : String) (req : List String)
    (hagent : hasKey data "agent" = true)
    (hstage : hasKey data "stage" = true)
    (hstatusK : hasKey data "status" = true)
    (htsK : hasKey data "timestamp" = true)
    (heA : validate_enum (pyGetV data "agent") VALID_AGENTS "agent" = none)
    (heS : validate_enum (pyGetV data "stage") VALID_STAGES "stage" = none)
    (hstatus : pyGetV data "status" = some (Json.str "blocked"))
    (hts : validate_timestamp (pyGetV data "timestamp") = .ok none)
    (hbi : pyTruthyOpt (pyGetV data "blocking_issues") = false) :
    validate_stage_completion_signal data = .ok [blockedMsg] ∧
    (pathName p = "stage-completion-signal.json" → fs p = .valid data →
     pathExists fs sp = true → fs sp = .valid schema →
     validate_required_fields data schema = .ok req →
     validate_artifact fs cap false p (some sp) = .ok (false, req ++ [blockedMsg])) := by
  have hdomain : validate_stage_completion_signal data = .ok [blockedMsg] := by
    unfold validate_stage_completion_signal scsTimestampStep
    rw [htsK]
    simp only [if_pos rfl, hts]
    have hmiss : missingFieldErrors ["agent", "stage", "status", "timestamp"] data = [] := by
      simp [missingFieldErrors, hagent, hstage, hstatusK, htsK]
    have hstE : validate_enum (pyGetV data "status") VALID_STATUSES "status" = none := by
      rw [hstatus]
      decide
    have henums : scsEnumErrors data = [] := by
      unfold scsEnumErrors
      rw [heA, heS, hstE]
      rfl
    have hblocked : scsBlockedErrors data = [blockedMsg] := by
      unfold scsBlockedErrors
      rw [hstatus, hbi]
      decide
    rw [hmiss, henums, hblocked]
    rfl
  refine ⟨hdomain, ?_⟩
  intro hname hload hex hschema hreq
  unfold validate_artifact
  simp only [load_json, hload, hex, hschema]
  rw [if_neg (by simp [hex])]
  simp only [Bool.false_eq_true, if_false]
  unfold domainValidatorStep
  rw [hname]
  simp only [if_pos rfl, hreq, hdomain]
  have hne : (req ++ [blockedMsg]).isEmpty = false := by
    cases req <;> rfl
  simp [hne]

/-- The blocked-without-issues document for the C5 witness. -/
def c5Doc : Doc :=
  [("agent", Json.str "product_manager"),
   ("stage", Json.str "requirements"),
   ("status", Json.str "blocked"),
   ("timestamp", Json.str "2024-01-01T00:00:00Z")]

/-- File system for the C5 witness. -/
def fsC5 : FS := fun p =>
  if p = "ROOT/ARTIFACTS/stage-completion-signal.json" then .valid c5Doc
  else if p = scsSchemaPath then .valid stageCompletionSignalSchema
  else .absent

/-- Witness for C5 at a concrete document and file system. -/
theorem C5_blocked_without_issues_fails_witness :
    validate_stage_completion_signal c5Doc = .ok [blockedMsg] ∧
    validate_artifact fsC5 capNone false
      "ROOT/ARTIFACTS/stage-completion-signal.json" (some scsSchemaPath) =
      .ok (false, [] ++ [blockedMsg]) := by
  have H := C5_blocked_without_issues_fails c5Doc fsC5 capNone
    "ROOT/ARTIFACTS/stage-completion-signal.json" stageCompletionSignalSchema
    scsSchemaPath []
    (by decide) (by decide) (by decide) (by decide) (by decide) (by decide)
    rfl (by decide) (by decide)
  exact ⟨H.1, H.2 (by decide) rfl (by decide) rfl (by decide)⟩

/-- The number of enumerated files that individually fail validation. -/
def batchFailCount (fs : FS) (cap : Capability) (hasJsonschema : Bool)
    (files : List String) : Nat :=
  files.countP (fun f => decide (validate_file fs cap hasJsonschema f none = .ok false))

theorem batchFold_counts (fs : FS) (cap : Capability) (hasJsonschema : Bool) :
    ∀ files : List String,
      (∀ f ∈ files, ∃ b, validate_file fs cap hasJsonschema f none = .ok b) →
      batchFailCount fs cap hasJsonschema files ≤ files.length ∧
      batchFold fs cap hasJsonschema files =
        .ok (files.length,
             files.length - batchFailCount fs cap hasJsonschema files,
             batchFailCount fs cap hasJsonschema files) := by
  intro files
  induction files with
  | nil => intro _; exact ⟨Nat.le_refl 0, rfl⟩
  | cons f rest ih =>
      intro hnc
      obtain ⟨b, hb⟩ := hnc f (by simp)
      obtain ⟨hk, hfold⟩ := ih (fun g hg => hnc g (by simp [hg]))
      have hcnt : batchFailCount fs cap hasJsonschema (f :: rest) =
          batchFailCount fs cap hasJsonschema rest + if b = false then 1 else 0 := by
        unfold batchFailCount
        rw [List.countP_cons]
        cases b <;> simp [hb]
      constructor
      · rw [hcnt]
        cases b <;> simp <;> omega
      · unfold batchFold
        rw [hb, hfold, hcnt]
        cases b <;> simp <;> omega

/-- C8: a batch run over `files` (each of which validates without an uncaught
exception) counts total = N, passed = N - K and failed = K, where K is the
number of individually failing files; overall success holds iff K = 0, the
process exit code is 1 iff K > 0, and no single failure aborts the scan (the
fold still returns counts over all N files). -/
theorem C8_batch_counts (fs : FS) (cap : Capability) (hasJsonschema : Bool)
    (files : List String)
    (hnc : ∀ f ∈ files, ∃ b, validate_file fs cap hasJsonschema f none = .ok b) :
    batchFold fs cap hasJsonschema files =
      .ok (files.length,
           files.length - batchFailCount fs cap hasJsonschema files,
           batchFailCount fs cap hasJsonschema files) ∧
    validate_all fs cap hasJsonschema true files =
      .ok (decide (batchFailCount fs cap hasJsonschema files = 0)) ∧
    mainAllExitCode fs cap hasJsonschema true files =
      .ok (if 0 < batchFailCount fs cap hasJsonschema files then 1 else 0) := by
  obtain ⟨hk, hfold⟩ := batchFold_counts fs cap hasJsonschema files hnc
  have hall : validate_all fs cap hasJsonschema true files =
      .ok (decide (batchFailCount fs cap hasJsonschema files = 0)) := by
    unfold validate_all
    rw [if_neg (by simp)]
    rw [hfold]
    simp [Except.map]
    cases hK : batchFailCount fs cap hasJsonschema files <;> simp
  refine ⟨hfold, hall, ?_⟩
  unfold mainAllExitCode
  rw [hall]
  simp [Except.map]
  cases hK : batchFailCount fs cap hasJsonschema files <;> simp

/-- File system for the C8 witness: one passing artifact, one invalid one. -/
def fsBatch : FS := fun p =>
  if p = "ROOT/ARTIFACTS/a.json" then .valid []
  else if p = "ROOT/ARTIFACTS/bad.json" then .invalidJson "Expecting value"
  else .absent

/-- The enumerated files of the C8 witness batch. -/
def batchFiles : List String := ["ROOT/ARTIFACTS/a.json", "ROOT/ARTIFACTS/bad.json"]

/-- Witness for C8: N = 2 files of which K = 1 fails gives counts (2, 1, 1),
overall failure, exit code 1. -/
theorem C8_batch_counts_witness :
    batchFold fsBatch capNone false batchFiles = .ok (2, 1, 1) ∧
    validate_all fsBatch capNone false true batchFiles = .ok false ∧
    mainAllExitCode fsBatch capNone false true batchFiles = .ok 1 := by
  have H := C8_batch_counts fsBatch capNone false batchFiles (by
    intro f hf
    simp [batchFiles] at hf
    rcases hf with h | h <;> subst h
    · exact ⟨true, by decide⟩
    · exact ⟨false, by decide⟩)
  have hK : batchFailCount fsBatch capNone false batchFiles = 1 := by decide
  refine ⟨?_, ?_, ?_⟩
  · have h1 := H.1
    rw [hK] at h1
    simpa [batchFiles] using h1
  · have h2 := H.2.1
    rw [hK] at h2
    simpa using h2
  · have h3 := H.2.2
    rw [hK] at h3
    simpa using h3

-- Small counting helpers for singleton lists of messages.

theorem count_singleton_eq (a : String) : [a].count a = 1 := by
  simp

theorem count_singleton_ne {a b : String} (h : b ≠ a) : [b].count a = 0 := by
  simp [List.count_singleton', h]

theorem modeMsg_get0 (v : Json) : (modeMsg v).data.get? 0 = some 'I' := by
  simp only [modeMsg, strDataAppend, List.append_assoc]; rfl

/-- C1 counterexample: when the external library reports two violations for
one document, `validate_with_jsonschema` converts only the first into an
error string — the second violation's path-plus-message string is absent, so
not every reported violation gets its own error string. -/
theorem C1_counterexample :
    validate_with_jsonschema (ConformanceReport.findings
        [⟨"$.agent", "'x' is not one of the valid agents"⟩,
         ⟨"$.stage", "'y' is not one of the valid stages"⟩]) =
      ["$.agent: 'x' is not one of the valid agents"] ∧
    "$.stage: 'y' is not one of the valid stages" ∉
      validate_with_jsonschema (ConformanceReport.findings
        [⟨"$.agent", "'x' is not one of the valid agents"⟩,
         ⟨"$.stage", "'y' is not one of the valid stages"⟩]) := by
  constructor
  · rfl
  · decide

/-- C1 amended: in the fallback tier all findings for one artifact
(structural required-field findings, then the domain validator's findings)
are collected into one ordered list and returned together, never stopping at
the first error; in the conformance tier only the first violation reported by
the library is converted into its path-plus-message error string. -/
theorem C1_amended_findings_collected (fs : FS) (cap : Capability)
    (p sp : String) (data schema : Doc) (req dom : List String)
    (hload : fs p = .valid data)
    (hex : pathExists fs sp = true)
    (hs : fs sp = .valid schema)
    (hreq : validate_required_fields data schema = .ok req)
    (hdom : domainValidatorStep p data = .ok dom) :
    validate_artifact fs cap false p (some sp) =
      .ok ((req ++ dom).isEmpty, req ++ dom) ∧
    (∀ (v : Violation) (vs : List Violation),
      validate_with_jsonschema (.findings (v :: vs)) =
        [v.json_path ++ ": " ++ v.message]) := by
  constructor
  · unfold validate_artifact
    simp only [load_json, hload, hs]
    rw [if_neg (by simp [hex])]
    simp only [Bool.false_eq_true, if_false]
    rw [hreq, hdom]
  · intro v vs
    rfl

/-- A stage-completion document with several problems at once (three missing
fields and one invalid enum value). -/
def c1Doc : Doc := [("stage", Json.str "wrong")]

/-- File system for the C1 witness. -/
def fsC1 : FS := fun p =>
  if p = "ROOT/ARTIFACTS/stage-completion-signal.json" then .valid c1Doc
  else if p = scsSchemaPath then .valid stageCompletionSignalSchema
  else .absent

set_option maxRecDepth 8192 in
/-- Witness for C1 (amended): all seven findings of one artifact come back in
one ordered list, and a conformance report's first violation is converted to
path-plus-message. -/
theorem C1_amended_findings_collected_witness :
    validate_artifact fsC1 capNone false
        "ROOT/ARTIFACTS/stage-completion-signal.json" (some scsSchemaPath) =
      .ok (false,
        ["Missing required field: agent", "Missing required field: status",
         "Missing required field: timestamp"] ++
        ["Missing required field: agent", "Missing required field: status",
         "Missing required field: timestamp",
         "Invalid stage: 'wrong' (valid: requirements, architecture, frontend_implementation, backend_implementation, ai_implementation, qa_testing, deployment, safety_review, governance_review, code_health_assessment)"]) ∧
    validate_with_jsonschema (.findings [⟨"$.agent", "bad"⟩]) = ["$.agent: bad"] := by
  have H := C1_amended_findings_collected fsC1 capNone
    "ROOT/ARTIFACTS/stage-completion-signal.json" scsSchemaPath
    c1Doc stageCompletionSignalSchema
    ["Missing required field: agent", "Missing required field: status",
     "Missing required field: timestamp"]
    ["Missing required field: agent", "Missing required field: status",
     "Missing required field: timestamp",
     "Invalid stage: 'wrong' (valid: requirements, architecture, frontend_implementation, backend_implementation, ai_implementation, qa_testing, deployment, safety_review, governance_review, code_health_assessment)"]
    rfl (by decide) rfl (by decide) (by decide)
  exact ⟨by simpa using H.1, H.2 ⟨"$.agent", "bad"⟩ []⟩

/-- A stage-completion document missing exactly the `agent` field. -/
def c6Doc : Doc :=
  [("stage", Json.str "requirements"),
   ("status", Json.str "completed"),
   ("timestamp", Json.str "2024-01-01T00:00:00Z")]

/-- C6 counterexample: for a document missing `agent`, the validator's error
list is exactly `["Missing required field: agent"]` (capital M); it does not
contain the claimed exact string "missing required field: agent". -/
theorem C6_counterexample :
    validate_stage_completion_signal c6Doc = .ok ["Missing required field: agent"] ∧
    "missing required field: agent" ∉ ["Missing required field: agent"] := by
  constructor
  · decide
  · decide

/-- C6 amended: for every stage-completion-signal document missing `agent`
(and validating without an uncaught exception), the error list contains the
exact string "Missing required field: agent" (capital M), the list is
non-empty, and the engine reports success = false. -/
theorem C6_missing_agent_fails (data : Doc) (l : List String)
    (hagent : hasKey data "agent" = false)
    (hok : validate_stage_completion_signal data = .ok l) :
    missingMsg "agent" ∈ l ∧ l ≠ [] ∧
    (∀ (fs : FS) (cap : Capability) (p sp : String) (schema : Doc) (req : List String),
      pathName p = "stage-completion-signal.json" →
      fs p = .valid data → pathExists fs sp = true → fs sp = .valid schema →
      validate_required_fields data schema = .ok req →
      validate_artifact fs cap false p (some sp) = .ok (false, req ++ l) ∧
        missingMsg "agent" ∈ req ++ l) := by
  obtain ⟨tsr, hts, hl⟩ := scs_shape hok
  have hmem : missingMsg "agent" ∈ l := by
    rw [hl]
    refine List.mem_append.2 (Or.inl (List.mem_append.2 (Or.inl (List.mem_append.2 (Or.inl ?_)))))
    simp [missingFieldErrors, hagent]
  have hne : l ≠ [] := by
    intro h0
    rw [h0] at hmem
    simp at hmem
  refine ⟨hmem, hne, ?_⟩
  intro fs cap p sp schema req hname hload hex hschema hreq
  have hdom : domainValidatorStep p data = .ok l := by
    unfold domainValidatorStep
    rw [hname]
    simp only [if_pos rfl]
    exact hok
  have hmain : validate_artifact fs cap false p (some sp) = .ok (false, req ++ l) := by
    unfold validate_artifact
    simp only [load_json, hload, hschema]
    rw [if_neg (by simp [hex])]
    simp only [Bool.false_eq_true, if_false]
    rw [hreq, hdom]
    have hne2 : (req ++ l).isEmpty = false := by
      cases hr : req ++ l with
      | nil => exact absurd (List.append_eq_nil.1 hr).2 hne
      | cons a t => rfl
    simp [hne2]
  exact ⟨hmain, List.mem_append.2 (Or.inr hmem)⟩

/-- File system for the C6 witness. -/
def fsC6 : FS := fun p =>
  if p = "ROOT/ARTIFACTS/stage-completion-signal.json" then .valid c6Doc
  else if p = scsSchemaPath then .valid stageCompletionSignalSchema
  else .absent

/-- Witness for C6 (amended) at the concrete document missing `agent`. -/
theorem C6_missing_agent_fails_witness :
    missingMsg "agent" ∈ ["Missing required field: agent"] ∧
    validate_artifact fsC6 capNone false
        "ROOT/ARTIFACTS/stage-completion-signal.json" (some scsSchemaPath) =
      .ok (false, ["Missing required field: agent"] ++ ["Missing required field: agent"]) := by
  have H := C6_missing_agent_fails c6Doc ["Missing required field: agent"]
    (by decide) (by decide)
  have H2 := H.2.2 fsC6 capNone "ROOT/ARTIFACTS/stage-completion-signal.json"
    scsSchemaPath stageCompletionSignalSchema ["Missing required field: agent"]
    (by decide) rfl (by decide) rfl (by decide)
  exact ⟨H.1, H2.1⟩

/-- C2 amended: for `agent`, `stage` and `status` a present non-null value
outside the registered set produces exactly one finding, formatted
"Invalid `<field>`: '<value>' (valid: <comma-joined-valid-set>)" with a
capital I; for `execution_mode` a present truthy value outside the registered
set produces exactly one finding "Invalid execution_mode: '<value>'",
without the valid set. -/
theorem C2_invalid_enum_exactly_one_finding :
    (∀ (data : Doc) (v : Json) (l : List String),
      pyGetV data "agent" = some v → jsonInStrList v VALID_AGENTS = false →
      validate_stage_completion_signal data = .ok l →
      l.count (enumErrorMsg "agent" v VALID_AGENTS) = 1) ∧
    (∀ (data : Doc) (v : Json) (l : List String),
      pyGetV data "stage" = some v → jsonInStrList v VALID_STAGES = false →
      validate_stage_completion_signal data = .ok l →
      l.count (enumErrorMsg "stage" v VALID_STAGES) = 1) ∧
    (∀ (data : Doc) (v : Json) (l : List String),
      pyGetV data "status" = some v → jsonInStrList v VALID_STATUSES = false →
      validate_stage_completion_signal data = .ok l →
      l.count (enumErrorMsg "status" v VALID_STATUSES) = 1) ∧
    (∀ (data : Doc) (v : Json),
      pyGetV data "execution_mode" = some v → pyTruthy v = true →
      jsonInStrList v VALID_EXECUTION_MODES = false →
      (validate_workflow_state data).count (modeMsg v) = 1) := by
  refine ⟨?_, ?_, ?_, ?_⟩
  · intro data v l hget hnotin hok
    have hA : validate_enum (pyGetV data "agent") VALID_AGENTS "agent" =
        some (enumErrorMsg "agent" v VALID_AGENTS) := by
      rw [hget]
      simp [validate_enum, hnotin]
    have h8 : (enumErrorMsg "agent" v VALID_AGENTS).data.get? 8 ≠ some 't' := by
      rw [enumErrorMsg_agent_get8]
      intro h
      exact absurd (Option.some.inj h) (by decide)
    rw [scs_count_eq_enums hok (enumErrorMsg_get0 "agent" v VALID_AGENTS) h8]
    unfold scsEnumErrors
    rw [hA, List.count_append, List.count_append]
    have hstage : ((validate_enum (pyGetV data "stage") VALID_STAGES "stage").toList).count
        (enumErrorMsg "agent" v VALID_AGENTS) = 0 := by
      cases he : validate_enum (pyGetV data "stage") VALID_STAGES "stage" with
      | none => rfl
      | some m' =>
          obtain ⟨v', _, _, hm⟩ := validate_enum_eq_some he
          subst hm
          exact count_singleton_ne
            (str_ne_of_get (enumErrorMsg_stage_get8 v' _) (enumErrorMsg_agent_get8 v _) (by decide))
    have hstatus : ((validate_enum (pyGetV data "status") VALID_STATUSES "status").toList).count
        (enumErrorMsg "agent" v VALID_AGENTS) = 0 := by
      cases he : validate_enum (pyGetV data "status") VALID_STATUSES "status" with
      | none => rfl
      | some m' =>
          obtain ⟨v', _, _, hm⟩ := validate_enum_eq_some he
          subst hm
          exact count_singleton_ne
            (str_ne_of_get (enumErrorMsg_status_get8 v' _) (enumErrorMsg_agent_get8 v _) (by decide))
    rw [hstage, hstatus]
    simp
  · intro data v l hget hnotin hok
    have hS : validate_enum (pyGetV data "stage") VALID_STAGES "stage" =
        some (enumErrorMsg "stage" v VALID_STAGES) := by
      rw [hget]
      simp [validate_enum, hnotin]
    have h8 : (enumErrorMsg "stage" v VALID_STAGES).data.get? 8 ≠ some 't' := by
      rw [enumErrorMsg_stage_get8]
      intro h
      exact absurd (Option.some.inj h) (by decide)
    rw [scs_count_eq_enums hok (enumErrorMsg_get0 "stage" v VALID_STAGES) h8]
    unfold scsEnumErrors
    rw [hS, List.count_append, List.count_append]
    have hagent : ((validate_enum (pyGetV data "agent") VALID_AGENTS "agent").toList).count
        (enumErrorMsg "stage" v VALID_STAGES) = 0 := by
      cases he : validate_enum (pyGetV data "agent") VALID_AGENTS "agent" with
      | none => rfl
      | some m' =>
          obtain ⟨v', _, _, hm⟩ := validate_enum_eq_some he
          subst hm
          exact count_singleton_ne
            (str_ne_of_get (enumErrorMsg_agent_get8 v' _) (enumErrorMsg_stage_get8 v _) (by decide))
    have hstatus : ((validate_enum (pyGetV data "status") VALID_STATUSES "status").toList).count
        (enumErrorMsg "stage" v VALID_STAGES) = 0 := by
      cases he : validate_enum (pyGetV data "status") VALID_STATUSES "status" with
      | none => rfl
      | some m' =>
          obtain ⟨v', _, _, hm⟩ := validate_enum_eq_some he
          subst hm
          exact count_singleton_ne
            (str_ne_of_get (enumErrorMsg_status_get11 v' _) (enumErrorMsg_stage_get11 v _) (by decide))
    rw [hagent, hstatus]
    simp
  · intro data v l hget hnotin hok
    have hT : validate_enum (pyGetV data "status") VALID_STATUSES "status" =
        some (enumErrorMsg "status" v VALID_STATUSES) := by
      rw [hget]
      simp [validate_enum, hnotin]
    have h8 : (enumErrorMsg "status" v VALID_STATUSES).data.get? 8 ≠ some 't' := by
      rw [enumErrorMsg_status_get8]
      intro h
      exact absurd (Option.some.inj h) (by decide)
    rw [scs_count_eq_enums hok (enumErrorMsg_get0 "status" v VALID_STATUSES) h8]
    unfold scsEnumErrors
    rw [hT, List.count_append, List.count_append]
    have hagent : ((validate_enum (pyGetV data "agent") VALID_AGENTS "agent").toList).count
        (enumErrorMsg "status" v VALID_STATUSES) = 0 := by
      cases he : validate_enum (pyGetV data "agent") VALID_AGENTS "agent" with
      | none => rfl
      | some m' =>
          obtain ⟨v', _, _, hm⟩ := validate_enum_eq_some he
          subst hm
          exact count_singleton_ne
            (str_ne_of_get (enumErrorMsg_agent_get8 v' _) (enumErrorMsg_status_get8 v _) (by decide))
    have hstage : ((validate_enum (pyGetV data "stage") VALID_STAGES "stage").toList).count
        (enumErrorMsg "status" v VALID_STATUSES) = 0 := by
      cases he : validate_enum (pyGetV data "stage") VALID_STAGES "stage" with
      | none => rfl
      | some m' =>
          obtain ⟨v', _, _, hm⟩ := validate_enum_eq_some he
          subst hm
          exact count_singleton_ne
            (str_ne_of_get (enumErrorMsg_stage_get11 v' _) (enumErrorMsg_status_get11 v _) (by decide))
    rw [hagent, hstage]
    simp
  · intro data v hget htr hnotin
    unfold validate_workflow_state
    rw [hget]
    have hmiss : (missingFieldErrors
        ["workflow_id", "execution_mode", "current_stage", "stages", "created_at", "updated_at"]
        data).count (modeMsg v) = 0 := by
      refine count_eq_zero_of_forall_ne ?_
      intro x hx
      obtain ⟨f, _, hf⟩ := mem_missingFieldErrors hx
      subst hf
      exact str_ne_of_get (missingMsg_get0 f) (modeMsg_get0 v) (by decide)
    simp [List.count_append, hmiss, htr, hnotin]

/-- A complete workflow-state document with an unregistered execution mode. -/
def c2Doc : Doc :=
  [("workflow_id", Json.str "wf-1"),
   ("execution_mode", Json.str "bogus"),
   ("current_stage", Json.str "requirements"),
   ("stages", Json.obj []),
   ("created_at", Json.str "2024-01-01T00:00:00Z"),
   ("updated_at", Json.str "2024-01-01T00:00:00Z")]

/-- A stage-completion document whose agent is outside the registered set. -/
def c2AgentDoc : Doc :=
  [("agent", Json.str "bogus"),
   ("stage", Json.str "requirements"),
   ("status", Json.str "completed"),
   ("timestamp", Json.str "2024-01-01T00:00:00Z")]

set_option maxRecDepth 8192 in
/-- C2 counterexample: the `execution_mode` finding does not name the valid
set at all, and no finding uses the claimed lowercase "invalid ..." format —
the emitted strings are capitalized ("Invalid ...") and, for
`execution_mode`, carry only the offending value. -/
theorem C2_counterexample :
    validate_workflow_state c2Doc = ["Invalid execution_mode: 'bogus'"] ∧
    "invalid execution_mode: 'bogus' (valid: full_system, fast_feature)" ∉
      validate_workflow_state c2Doc ∧
    "Invalid execution_mode: 'bogus' (valid: full_system, fast_feature)" ∉
      validate_workflow_state c2Doc ∧
    validate_stage_completion_signal c2AgentDoc =
      .ok ["Invalid agent: 'bogus' (valid: product_manager, system_architect, frontend_engineer, backend_engineer, ai_engineer, qa_engineer, devops_engineer, safety_agent, governance_agent, code_health_agent)"] ∧
    "invalid agent: 'bogus' (valid: product_manager, system_architect, frontend_engineer, backend_engineer, ai_engineer, qa_engineer, devops_engineer, safety_agent, governance_agent, code_health_agent)" ∉
      ["Invalid agent: 'bogus' (valid: product_manager, system_architect, frontend_engineer, backend_engineer, ai_engineer, qa_engineer, devops_engineer, safety_agent, governance_agent, code_health_agent)"] := by
  refine ⟨by decide, by decide, by decide, by decide, by decide⟩

/-- A stage-completion document with all three enum fields invalid. -/
def c2AllBadDoc : Doc :=
  [("agent", Json.str "a1"),
   ("stage", Json.str "s1"),
   ("status", Json.str "st1"),
   ("timestamp", Json.str "2024-01-01T00:00:00Z")]

/-- The error list produced for `c2AllBadDoc`. -/
def c2AllBadList : List String :=
  [enumErrorMsg "agent" (Json.str "a1") VALID_AGENTS,
   enumErrorMsg "stage" (Json.str "s1") VALID_STAGES,
   enumErrorMsg "status" (Json.str "st1") VALID_STATUSES]

set_option maxRecDepth 8192 in
/-- Witness for C2 (amended): each invalid enum field contributes exactly one
finding, at concrete documents. -/
theorem C2_invalid_enum_exactly_one_finding_witness :
    c2AllBadList.count (enumErrorMsg "agent" (Json.str "a1") VALID_AGENTS) = 1 ∧
    c2AllBadList.count (enumErrorMsg "stage" (Json.str "s1") VALID_STAGES) = 1 ∧
    c2AllBadList.count (enumErrorMsg "status" (Json.str "st1") VALID_STATUSES) = 1 ∧
    (validate_workflow_state c2Doc).count (modeMsg (Json.str "bogus")) = 1 := by
  have H := C2_invalid_enum_exactly_one_finding
  refine ⟨H.1 c2AllBadDoc (Json.str "a1") c2AllBadList rfl (by decide) (by decide),
    H.2.1 c2AllBadDoc (Json.str "s1") c2AllBadList rfl (by decide) (by decide),
    H.2.2.1 c2AllBadDoc (Json.str "st1") c2AllBadList rfl (by decide) (by decide),
    H.2.2.2 c2Doc (Json.str "bogus") rfl (by decide) (by decide)⟩

theorem pyGetV_eq_none_of_absent {d : Doc} {f : String}
    (h : hasKey d f = false) : pyGetV d f = none := by
  unfold hasKey at h
  unfold pyGetV
  cases hd : dictLookup d f with
  | none => rfl
  | some v => rw [hd] at h; simp at h

theorem count_missing_agent {data : Doc} (h : hasKey data "agent" = false) :
    (missingFieldErrors ["agent", "stage", "status", "timestamp"] data).count
      (missingMsg "agent") = 1 := by
  by_cases h2 : hasKey data "stage" <;> by_cases h3 : hasKey data "status" <;>
    by_cases h4 : hasKey data "timestamp" <;>
    simp [missingFieldErrors, h, h2, h3, h4, List.count_append, List.count_cons,
      List.count_nil, missingMsg]

theorem count_missing_stage {data : Doc} (h : hasKey data "stage" = false) :
    (missingFieldErrors ["agent", "stage", "status", "timestamp"] data).count
      (missingMsg "stage") = 1 := by
  by_cases h2 : hasKey data "agent" <;> by_cases h3 : hasKey data "status" <;>
    by_cases h4 : hasKey data "timestamp" <;>
    simp [missingFieldErrors, h, h2, h3, h4, List.count_append, List.count_cons,
      List.count_nil, missingMsg]

theorem count_missing_status {data : Doc} (h : hasKey data "status" = false) :
    (missingFieldErrors ["agent", "stage", "status", "timestamp"] data).count
      (missingMsg "status") = 1 := by
  by_cases h2 : hasKey data "agent" <;> by_cases h3 : hasKey data "stage" <;>
    by_cases h4 : hasKey data "timestamp" <;>
    simp [missingFieldErrors, h, h2, h3, h4, List.count_append, List.count_cons,
      List.count_nil, missingMsg]

/-- C10: in the stage-completion validator an absent enum field yields Python
`None`, so its enum check is skipped (no invalid-enum finding), and the field
contributes exactly one error string — its missing-required-field message. -/
theorem C10_absent_enum_field_single_finding (data : Doc) (l : List String)
    (hok : validate_stage_completion_signal data = .ok l) :
    (hasKey data "agent" = false →
       pyGetV data "agent" = none ∧
       validate_enum (pyGetV data "agent") VALID_AGENTS "agent" = none ∧
       l.count (missingMsg "agent") = 1) ∧
    (hasKey data "stage" = false →
       pyGetV data "stage" = none ∧
       validate_enum (pyGetV data "stage") VALID_STAGES "stage" = none ∧
       l.count (missingMsg "stage") = 1) ∧
    (hasKey data "status" = false →
       pyGetV data "status" = none ∧
       validate_enum (pyGetV data "status") VALID_STATUSES "status" = none ∧
       l.count (missingMsg "status") = 1) := by
  refine ⟨?_, ?_, ?_⟩ <;> intro h
  · have hn := pyGetV_eq_none_of_absent h
    refine ⟨hn, by rw [hn]; rfl, ?_⟩
    rw [scs_count_eq_missing hok (missingMsg_get0 "agent")]
    exact count_missing_agent h
  · have hn := pyGetV_eq_none_of_absent h
    refine ⟨hn, by rw [hn]; rfl, ?_⟩
    rw [scs_count_eq_missing hok (missingMsg_get0 "stage")]
    exact count_missing_stage h
  · have hn := pyGetV_eq_none_of_absent h
    refine ⟨hn, by rw [hn]; rfl, ?_⟩
    rw [scs_count_eq_missing hok (missingMsg_get0 "status")]
    exact count_missing_status h

/-- A stage-completion document with all three enum fields absent. -/
def c10Doc : Doc := [("timestamp", Json.str "2024-01-01T00:00:00Z")]

/-- The error list produced for `c10Doc`. -/
def c10List : List String :=
  [missingMsg "agent", missingMsg "stage", missingMsg "status"]

/-- Witness for C10 at a concrete document with the enum fields absent. -/
theorem C10_absent_enum_field_single_finding_witness :
    (pyGetV c10Doc "agent" = none ∧
     validate_enum (pyGetV c10Doc "agent") VALID_AGENTS "agent" = none ∧
     c10List.count (missingMsg "agent") = 1) ∧
    (pyGetV c10Doc "stage" = none ∧
     validate_enum (pyGetV c10Doc "stage") VALID_STAGES "stage" = none ∧
     c10List.count (missingMsg "stage") = 1) ∧
    (pyGetV c10Doc "status" = none ∧
     validate_enum (pyGetV c10Doc "status") VALID_STATUSES "status" = none ∧
     c10List.count (missingMsg "status") = 1) := by
  have H := C10_absent_enum_field_single_finding c10Doc c10List (by decide)
  exact ⟨H.1 (by decide), H.2.1 (by decide), H.2.2 (by decide)⟩
